import Mathlib

/-!
Shallow embedding of the parkguard-api core (violations.py, decision_engine.py,
rule_engine.py, proximity_engine.py, hydrant_service.py, sign_parser.py) and
proofs about the spec claims.

Modelling conventions:
* Python `datetime` instants are modelled as naive local seconds (`Nat`),
  with the convention that day 0 (seconds 0..86399) is a Monday, so
  `weekday t = (t / 86400) % 7` matches Python `datetime.weekday()`.
  Sub-second precision is dropped: every datetime the code constructs has
  `microsecond=0`, and comparisons in the code against such values are
  invariant under truncation to seconds.
* Python floats the claims touch are modelled as exact rationals; rational
  constants are written with `mkRat`.
* Python string operations are re-implemented structurally over `List Char`
  so that all definitions evaluate by kernel reduction.
* Python `or` on optional strings (empty string falsy) is `pyor`.
-/

/-! ## String helpers (Python str operations over `List Char`) -/

/-- Whether `pat` is a prefix of `s` (Boolean, structural). -/
def isPrefixL (pat s : List Char) : Bool :=
  match pat, s with
  | [], _ => true
  | _ :: _, [] => false
  | p :: ps, c :: cs => p = c && isPrefixL ps cs

/-- Whether `pat` occurs as a contiguous substring of `s` (Python `in`). -/
def isSubL (pat s : List Char) : Bool :=
  match s with
  | [] => pat.isEmpty
  | _ :: cs => isPrefixL pat s || isSubL pat cs

/-- Python substring test `sub in s`. -/
def strContains (s sub : String) : Bool :=
  isSubL sub.data s.data

/-- Python `str.lower` (ASCII, which is all the source vocabulary uses). -/
def lowerS (s : String) : String :=
  ⟨s.data.map Char.toLower⟩

/-- Python `str.upper` (ASCII). -/
def upperS (s : String) : String :=
  ⟨s.data.map Char.toUpper⟩

/-- Python `str.strip` on a char list. -/
def trimL (s : List Char) : List Char :=
  ((s.dropWhile Char.isWhitespace).reverse.dropWhile Char.isWhitespace).reverse

/-- Python `str.strip`. -/
def trimS (s : String) : String :=
  ⟨trimL s.data⟩

/-- Python `str.split(sep)` for a single-char separator. -/
def splitCharL (sep : Char) (s : List Char) : List (List Char) :=
  match s with
  | [] => [[]]
  | c :: cs =>
      if c = sep then [] :: splitCharL sep cs
      else
        match splitCharL sep cs with
        | h :: t => (c :: h) :: t
        | [] => [[c]]

/-- Python `str.split(sep, 1)` for a single-char separator: the part before
the first occurrence, and (when the separator occurs) the remainder. -/
def splitFirstL (sep : Char) (s : List Char) : List Char × Option (List Char) :=
  match s with
  | [] => ([], none)
  | c :: cs =>
      if c = sep then ([], some cs)
      else
        let (a, b) := splitFirstL sep cs
        (c :: a, b)

/-- One fuel-measured step list for Python `str.replace(old, new)`: replaces
non-overlapping occurrences left to right.  `fuel ≥ s.length` makes the fuel
irrelevant; `replaceL` instantiates it that way. -/
def replaceLAux (old new : List Char) : Nat → List Char → List Char
  | 0, s => s
  | _ + 1, [] => []
  | fuel + 1, c :: cs =>
      if old ≠ [] ∧ isPrefixL old (c :: cs) then
        new ++ replaceLAux old new fuel (List.drop old.length (c :: cs))
      else
        c :: replaceLAux old new fuel cs

/-- Python `str.replace(old, new)` (left-to-right, non-overlapping). -/
def replaceS (s old new : String) : String :=
  ⟨replaceLAux old.data new.data s.data.length s.data⟩

/-- Python `opt or d` for an optional string: `None` and `""` are falsy. -/
def pyor (o : Option String) (d : String) : String :=
  match o with
  | some s => if s = "" then d else s
  | none => d

/-- Python truthiness of an optional string. -/
def truthyOpt (o : Option String) : Bool :=
  match o with
  | some s => s ≠ ""
  | none => false

/-- Zero-padded two-digit rendering, Python format `02d`. -/
def pad2 (n : Nat) : String :=
  if n < 10 then "0" ++ toString n else toString n

/-! ## Data model (schemas.py) -/

/-- schemas.ViolationEstimate (pydantic model), floats as rationals. -/
structure ViolationEstimate where
  violation_code : Option String := none
  min_fine_usd : Int
  max_fine_usd : Int
  jurisdiction : String := "NYC"
  confidence : ℚ
  note : Option String := none
  fine_source : Option String := none
  last_updated : Option String := none
  deriving DecidableEq, Repr

/-- schemas.ParkingRule (pydantic model); datetimes as naive local seconds. -/
structure ParkingRule where
  type : String
  description : String
  fine : Option Int := none
  next_cleaning : Option Nat := none
  window : Option String := none
  time_left : Option String := none
  rate : Option String := none
  max_time : Option String := none
  hours : Option String := none
  distance_ft : Option ℚ := none
  threshold_ft : Option ℚ := none
  eligible_vehicle_types : Option (List String) := none
  active_now : Option Bool := none
  severity : Option String := none
  valid : Bool
  reason : Option String := none
  source : String
  violation_estimate : Option ViolationEstimate := none
  deriving DecidableEq, Repr

/-- schemas.ViolationSummary. -/
structure ViolationSummary where
  estimated_total_min_usd : Int
  estimated_total_max_usd : Int
  highest_single_max_usd : Int
  high_risk_violations : Int
  currency : String := "USD"
  deriving DecidableEq, Repr

/-- The dict returned by decision_engine.derive_parking_decision. -/
structure Decision where
  status : String
  risk_score : Nat
  primary_reason : String
  recommended_action : String
  deriving DecidableEq, Repr

/-! ## violations.py -/

/-- violations._FineBand. -/
structure FineBand where
  min_usd : Int
  max_usd : Int
  violation_code : String
  confidence : ℚ
  note : String
  fine_source : String
  last_updated : String
  deriving DecidableEq, Repr

/-- The `fallback` dict of violations._load_fine_bands.  The repository ships
no `data/nyc_fines.json`, so `_load_fine_bands` always takes the
`FileNotFoundError` branch and returns this built-in mapping. -/
def fallback_fine_bands (rule_type : String) : Option FineBand :=
  let src := "ParkGuard internal NYC MVP mapping"
  let upd := "2026-02-27"
  if rule_type = "hydrant_proximity" then
    some ⟨115, 115, "NYC-HYDRANT-15FT", mkRat 95 100, "NYC hydrant clearance violation.", src, upd⟩
  else if rule_type = "street_cleaning" then
    some ⟨65, 65, "NYC-ASP", mkRat 9 10, "Alternate-side parking estimate.", src, upd⟩
  else if rule_type = "truck_loading_only" then
    some ⟨95, 115, "NYC-TRUCK-LOADING", mkRat 75 100, "Truck/loading-only curb misuse estimate.", src, upd⟩
  else if rule_type = "loading_only" then
    some ⟨95, 115, "NYC-LOADING-ONLY", mkRat 75 100, "Loading-only curb misuse estimate.", src, upd⟩
  else if rule_type = "taxi_only" then
    some ⟨95, 115, "NYC-TAXI-ONLY", mkRat 7 10, "Taxi stand curb misuse estimate.", src, upd⟩
  else if rule_type = "fhv_only" then
    some ⟨95, 115, "NYC-FHV-ONLY", mkRat 7 10, "FHV/TLC curb misuse estimate.", src, upd⟩
  else if rule_type = "fire_zone" then
    some ⟨115, 150, "NYC-FIRE-ZONE", mkRat 7 10, "Emergency/fire access obstruction estimate.", src, upd⟩
  else if rule_type = "official_vehicle_only" then
    some ⟨95, 150, "NYC-OFFICIAL-ONLY", mkRat 65 100, "Official vehicle-only zone misuse estimate.", src, upd⟩
  else if rule_type = "no_standing" then
    some ⟨95, 115, "NYC-NO-STANDING", mkRat 8 10, "No standing violation estimate by zone/time.", src, upd⟩
  else if rule_type = "no parking" then
    some ⟨65, 115, "NYC-NO-PARKING", mkRat 8 10, "No parking violation estimate by zone/time.", src, upd⟩
  else
    none

/-- violations.estimate_violation_for_rule. -/
def estimate_violation_for_rule (rule : ParkingRule) : Option ViolationEstimate :=
  if rule.type = "metered" then
    none
  else if rule.valid then
    none
  else
    match fallback_fine_bands rule.type with
    | none => none
    | some band =>
        some { violation_code := some band.violation_code
               min_fine_usd := band.min_usd
               max_fine_usd := band.max_usd
               confidence := band.confidence
               note := some band.note
               fine_source := some band.fine_source
               last_updated := some band.last_updated }

/-- violations.summarize_violations. -/
def summarize_violations (rules : List ParkingRule) : ViolationSummary :=
  let estimates := rules.filterMap (fun r => r.violation_estimate)
  match estimates with
  | [] =>
      { estimated_total_min_usd := 0
        estimated_total_max_usd := 0
        highest_single_max_usd := 0
        high_risk_violations := 0 }
  | e :: rest =>
      { estimated_total_min_usd := (estimates.map (fun x => x.min_fine_usd)).sum
        estimated_total_max_usd := (estimates.map (fun x => x.max_fine_usd)).sum
        highest_single_max_usd := rest.foldl (fun acc x => max acc x.max_fine_usd) e.max_fine_usd
        high_risk_violations := ((estimates.filter (fun x => (115 : Int) ≤ x.max_fine_usd)).length : Int) }

/-- Claim C1: `estimate_violation_for_rule` returns absent exactly when the
rule is metered, or valid, or its type has no fine-catalog entry; hence a
non-absent estimate implies `valid = false` and a non-metered type. -/
theorem C1_estimate_absent_iff (rule : ParkingRule) :
    (estimate_violation_for_rule rule = none ↔
      (rule.type = "metered" ∨ rule.valid = true ∨ fallback_fine_bands rule.type = none)) ∧
    (∀ e, estimate_violation_for_rule rule = some e →
      rule.valid = false ∧ rule.type ≠ "metered") := by
  constructor
  · unfold estimate_violation_for_rule
    split
    · simp_all
    · split
      · simp_all
      · cases h : fallback_fine_bands rule.type <;> simp_all
  · intro e he
    unfold estimate_violation_for_rule at he
    split at he
    · exact absurd he (by simp)
    · split at he
      · exact absurd he (by simp)
      · constructor
        · rename_i hv
          simpa using hv
        · rename_i hm _
          exact hm

/-- Witness for C1 at a concrete invalid hydrant rule. -/
theorem C1_estimate_absent_iff_witness :
    ({ type := "hydrant_proximity", description := "d", valid := false,
       source := "s" } : ParkingRule).valid = false ∧
    ({ type := "hydrant_proximity", description := "d", valid := false,
       source := "s" } : ParkingRule).type ≠ "metered" :=
  (C1_estimate_absent_iff
    { type := "hydrant_proximity", description := "d", valid := false, source := "s" }).2
    { violation_code := some "NYC-HYDRANT-15FT", min_fine_usd := 115, max_fine_usd := 115,
      confidence := mkRat 95 100, note := some "NYC hydrant clearance violation.",
      fine_source := some "ParkGuard internal NYC MVP mapping",
      last_updated := some "2026-02-27" }
    (by decide)

/-! ## decision_engine.py -/

/-- Which list a matched rule contributes to in derive_parking_decision. -/
inductive BranchKind where
  | blocked
  | caution
  deriving DecidableEq, Repr

/-- The per-rule branch dispatch of decision_engine.derive_parking_decision:
for a rule that matches one of the eight `if ... continue` branches, the
branch index (1..8 in source order), the kind of list its reason joins, the
appended reason text, and the risk-score floor it contributes. -/
def rule_branch (r : ParkingRule) : Option (Nat × BranchKind × String × Nat) :=
  if r.type = "street_cleaning" ∧ r.active_now.getD false then
    some (1, .blocked, pyor r.reason "Street cleaning active now", 95)
  else if (r.type = "loading_only" ∨ r.type = "truck_loading_only") ∧ ¬r.valid then
    some (2, .blocked, pyor r.reason r.description, 92)
  else if (r.type = "taxi_only" ∨ r.type = "fhv_only") ∧ ¬r.valid then
    some (3, .blocked, pyor r.reason r.description, 93)
  else if (r.type = "fire_zone" ∨ r.type = "emergency_access" ∨
      r.type = "official_vehicle_only" ∨ r.type = "hydrant_proximity") ∧ ¬r.valid then
    some (4, .blocked, pyor r.reason r.description,
      if r.type = "hydrant_proximity" then 97 else 94)
  else if r.type = "hydrant_uncertain" then
    some (5, .caution, pyor r.reason "Possible hydrant nearby. Check manually.", 55)
  else if (r.type = "no_standing" ∨ r.type = "no parking") ∧ ¬r.valid then
    some (6, .blocked, r.description, 90)
  else if (r.type = "street_cleaning" ∨ r.type = "no_standing") ∧
      ¬r.active_now.getD false ∧ truthyOpt r.time_left then
    some (7, .caution,
      pyor r.reason (replaceS r.type "_" " " ++ " starts in " ++ r.time_left.getD ""), 60)
  else if r.type = "metered" ∧ r.valid then
    some (8, .caution, "Meter payment required", 30)
  else
    none

/-- The reason a rule appends to `blocked_reasons`, when it matches a blocked
branch. -/
def blocked_reason_of (r : ParkingRule) : Option String :=
  match rule_branch r with
  | some (_, .blocked, s, _) => some s
  | _ => none

/-- The reason a rule appends to `caution_reasons`, when it matches a caution
branch. -/
def caution_reason_of (r : ParkingRule) : Option String :=
  match rule_branch r with
  | some (_, .caution, s, _) => some s
  | _ => none

/-- The `blocked_reasons` list accumulated by the loop, in rule-list order. -/
def blocked_reasons (rules : List ParkingRule) : List String :=
  rules.filterMap blocked_reason_of

/-- The `caution_reasons` list accumulated by the loop, in rule-list order. -/
def caution_reasons (rules : List ParkingRule) : List String :=
  rules.filterMap caution_reason_of

/-- The running `risk_score = max(risk_score, floor)` accumulation. -/
def risk_acc (rules : List ParkingRule) : Nat :=
  rules.foldl
    (fun acc r =>
      match rule_branch r with
      | some (_, _, _, n) => max acc n
      | none => acc)
    0

/-- decision_engine.derive_parking_decision. -/
def derive_parking_decision (rules : List ParkingRule) : Decision :=
  let risk := risk_acc rules
  match blocked_reasons rules with
  | s :: _ =>
      { status := "blocked"
        risk_score := if risk = 0 then 90 else risk
        primary_reason := s
        recommended_action := "Do not park here. Move to another spot." }
  | [] =>
      match caution_reasons rules with
      | s :: _ =>
          { status := "caution"
            risk_score := if risk = 0 then 50 else risk
            primary_reason := s
            recommended_action := "Parking may be allowed now, but review restrictions." }
      | [] =>
          { status := "safe"
            risk_score := 10
            primary_reason := "No active restrictions detected in current rule set."
            recommended_action := "Proceed to park, then verify on-street signage." }

/-! ## Decision-engine lemmas -/

/-- One step of the risk accumulation. -/
def risk_step (acc : Nat) (r : ParkingRule) : Nat :=
  match rule_branch r with
  | some (_, _, _, n) => max acc n
  | none => acc

theorem risk_acc_eq_foldl (rules : List ParkingRule) :
    risk_acc rules = rules.foldl risk_step 0 := by
  unfold risk_acc risk_step
  rfl

theorem risk_step_right_comm (a : Nat) (x y : ParkingRule) :
    risk_step (risk_step a x) y = risk_step (risk_step a y) x := by
  unfold risk_step
  cases hx : rule_branch x <;> cases hy : rule_branch y
  · rfl
  · rfl
  · rfl
  · rename_i v₁ v₂
    obtain ⟨_, _, _, n₁⟩ := v₁
    obtain ⟨_, _, _, n₂⟩ := v₂
    simp only []
    omega

theorem foldl_risk_step_perm {l₁ l₂ : List ParkingRule} (p : l₁.Perm l₂) :
    ∀ a, l₁.foldl risk_step a = l₂.foldl risk_step a := by
  induction p with
  | nil => intro a; rfl
  | cons x _ ih =>
      intro a
      simp only [List.foldl_cons]
      exact ih _
  | swap x y l =>
      intro a
      simp only [List.foldl_cons]
      rw [risk_step_right_comm]
  | trans _ _ ih₁ ih₂ =>
      intro a
      exact (ih₁ a).trans (ih₂ a)

theorem risk_acc_perm {l₁ l₂ : List ParkingRule} (p : l₁.Perm l₂) :
    risk_acc l₁ = risk_acc l₂ := by
  rw [risk_acc_eq_foldl, risk_acc_eq_foldl]
  exact foldl_risk_step_perm p 0

theorem primary_first_blocked (pre post : List ParkingRule) (r : ParkingRule) (s : String)
    (hpre : ∀ p ∈ pre, blocked_reason_of p = none)
    (hr : blocked_reason_of r = some s) :
    (derive_parking_decision (pre ++ r :: post)).primary_reason = s := by
  have hb : blocked_reasons (pre ++ r :: post) = s :: post.filterMap blocked_reason_of := by
    unfold blocked_reasons
    rw [List.filterMap_append, List.filterMap_eq_nil_iff.mpr hpre, List.nil_append,
      List.filterMap_cons, hr]
  unfold derive_parking_decision
  rw [hb]

theorem primary_first_caution (pre post : List ParkingRule) (r : ParkingRule) (s : String)
    (hnb : blocked_reasons (pre ++ r :: post) = [])
    (hpre : ∀ p ∈ pre, caution_reason_of p = none)
    (hr : caution_reason_of r = some s) :
    (derive_parking_decision (pre ++ r :: post)).primary_reason = s := by
  have hc : caution_reasons (pre ++ r :: post) = s :: post.filterMap caution_reason_of := by
    unfold caution_reasons
    rw [List.filterMap_append, List.filterMap_eq_nil_iff.mpr hpre, List.nil_append,
      List.filterMap_cons, hr]
  unfold derive_parking_decision
  rw [hnb, hc]

theorem status_risk_perm {l₁ l₂ : List ParkingRule} (p : l₁.Perm l₂) :
    (derive_parking_decision l₁).status = (derive_parking_decision l₂).status ∧
    (derive_parking_decision l₁).risk_score = (derive_parking_decision l₂).risk_score := by
  have hb : (blocked_reasons l₁).Perm (blocked_reasons l₂) := p.filterMap _
  have hc : (caution_reasons l₁).Perm (caution_reasons l₂) := p.filterMap _
  have hr : risk_acc l₁ = risk_acc l₂ := risk_acc_perm p
  unfold derive_parking_decision
  cases h₁ : blocked_reasons l₁ with
  | cons x xs =>
      cases h₂ : blocked_reasons l₂ with
      | cons y ys => simp [hr]
      | nil =>
          rw [h₁, h₂] at hb
          exact absurd hb.eq_nil (by simp)
  | nil =>
      cases h₂ : blocked_reasons l₂ with
      | cons y ys =>
          rw [h₁, h₂] at hb
          exact absurd hb.symm.eq_nil (by simp)
      | nil =>
          cases h₃ : caution_reasons l₁ with
          | cons x xs =>
              cases h₄ : caution_reasons l₂ with
              | cons y ys => simp [hr]
              | nil =>
                  rw [h₃, h₄] at hc
                  exact absurd hc.eq_nil (by simp)
          | nil =>
              cases h₄ : caution_reasons l₂ with
              | cons y ys =>
                  rw [h₃, h₄] at hc
                  exact absurd hc.symm.eq_nil (by simp)
              | nil => simp

/-- If a rule matches a blocked branch other than branch 6 (no_standing /
"no parking"), the appended reason is the rule's own non-empty reason. -/
theorem blocked_branch_reason_verbatim (r : ParkingRule) (i : Nat) (s : String) (n : Nat)
    (h : rule_branch r = some (i, BranchKind.blocked, s, n)) (h6 : i ≠ 6)
    (s0 : String) (hr : r.reason = some s0) (hs0 : s0 ≠ "") : s = s0 := by
  unfold rule_branch at h
  split_ifs at h <;> simp_all [pyor]

/-- If a rule matches a caution branch other than branch 8 (metered), the
appended reason is the rule's own non-empty reason. -/
theorem caution_branch_reason_verbatim (r : ParkingRule) (i : Nat) (s : String) (n : Nat)
    (h : rule_branch r = some (i, BranchKind.caution, s, n)) (h8 : i ≠ 8)
    (s0 : String) (hr : r.reason = some s0) (hs0 : s0 ≠ "") : s = s0 := by
  unfold rule_branch at h
  split_ifs at h <;> simp_all [pyor]

/-- Claim C3: derive_parking_decision yields the same status and risk_score
on any permutation of the rule list; the primary_reason is the reason of the
first rule in list order matching a blocked branch (or, with no blocked
match, the first matching a caution branch), so exchanging two
blocked-matching rules exchanges the primary_reason. -/
theorem C3_decision_order :
    (∀ (l₁ l₂ : List ParkingRule), l₁.Perm l₂ →
      (derive_parking_decision l₁).status = (derive_parking_decision l₂).status ∧
      (derive_parking_decision l₁).risk_score = (derive_parking_decision l₂).risk_score) ∧
    (∀ (pre post : List ParkingRule) (r : ParkingRule) (s : String),
      (∀ p ∈ pre, blocked_reason_of p = none) → blocked_reason_of r = some s →
      (derive_parking_decision (pre ++ r :: post)).primary_reason = s) ∧
    (∀ (pre post : List ParkingRule) (r : ParkingRule) (s : String),
      blocked_reasons (pre ++ r :: post) = [] →
      (∀ p ∈ pre, caution_reason_of p = none) → caution_reason_of r = some s →
      (derive_parking_decision (pre ++ r :: post)).primary_reason = s) ∧
    (∀ (a b : ParkingRule) (rest : List ParkingRule) (sa sb : String),
      blocked_reason_of a = some sa → blocked_reason_of b = some sb →
      (derive_parking_decision (a :: b :: rest)).primary_reason = sa ∧
      (derive_parking_decision (b :: a :: rest)).primary_reason = sb) := by
  refine ⟨fun l₁ l₂ hp => status_risk_perm hp,
    fun pre post r s hpre hr => primary_first_blocked pre post r s hpre hr,
    fun pre post r s hnb hpre hr => primary_first_caution pre post r s hnb hpre hr,
    fun a b rest sa sb ha hb => ⟨?_, ?_⟩⟩
  · exact primary_first_blocked [] (b :: rest) a sa (by simp) ha
  · exact primary_first_blocked [] (a :: rest) b sb (by simp) hb

/-- Concrete blocked rule used in decision-engine witnesses. -/
def ruleHydrantA : ParkingRule :=
  { type := "hydrant_proximity", description := "Hydrant clearance A", valid := false,
    source := "s" }

/-- Concrete blocked rule used in decision-engine witnesses. -/
def ruleFireB : ParkingRule :=
  { type := "fire_zone", description := "Fire zone B", valid := false, source := "s" }

/-- Witness for C3: two blocked rules in both orders. -/
theorem C3_decision_order_witness :
    ((derive_parking_decision [ruleHydrantA, ruleFireB]).status =
      (derive_parking_decision [ruleFireB, ruleHydrantA]).status) ∧
    (derive_parking_decision [ruleHydrantA, ruleFireB]).primary_reason = "Hydrant clearance A" ∧
    (derive_parking_decision [ruleFireB, ruleHydrantA]).primary_reason = "Fire zone B" :=
  ⟨(C3_decision_order.1 [ruleHydrantA, ruleFireB] [ruleFireB, ruleHydrantA]
      (List.Perm.swap ruleFireB ruleHydrantA [])).1,
    (C3_decision_order.2.2.2 ruleHydrantA ruleFireB [] "Hydrant clearance A" "Fire zone B"
      (by decide) (by decide)).1,
    (C3_decision_order.2.2.2 ruleFireB ruleHydrantA [] "Fire zone B" "Hydrant clearance A"
      (by decide) (by decide)).1⟩

/-- The no_standing rule refuting C5 as stated: its `reason` is set, it
drives the decision, yet `primary_reason` is its `description`. -/
def c5Rule : ParkingRule :=
  { type := "no_standing", description := "No standing sign text", valid := false,
    reason := some "Custom no-standing reason", source := "s" }

/-- Counterexample to claim C5 as stated: a rule matching the
no_standing/"no parking" blocked branch drives the decision with a
non-absent reason, but primary_reason is the rule's description, not its
reason. -/
theorem C5_counterexample :
    (derive_parking_decision [c5Rule]).status = "blocked" ∧
    c5Rule.reason = some "Custom no-standing reason" ∧
    (derive_parking_decision [c5Rule]).primary_reason = "No standing sign text" ∧
    (derive_parking_decision [c5Rule]).primary_reason ≠ "Custom no-standing reason" := by
  decide

/-- Claim C5 amended: when the decision-driving rule (first blocked match,
or first caution match when nothing is blocked) has a non-empty reason and
matched any branch other than the no_standing/"no parking" blocked branch
(index 6, which appends the description) or the metered caution branch
(index 8, which appends a fixed text), primary_reason is that rule's reason
verbatim. -/
theorem C5_reason_verbatim_amended :
    (∀ (pre post : List ParkingRule) (r : ParkingRule) (i : Nat) (s : String) (n : Nat)
      (s0 : String),
      (∀ p ∈ pre, blocked_reason_of p = none) →
      rule_branch r = some (i, BranchKind.blocked, s, n) →
      i ≠ 6 → r.reason = some s0 → s0 ≠ "" →
      (derive_parking_decision (pre ++ r :: post)).primary_reason = s0) ∧
    (∀ (pre post : List ParkingRule) (r : ParkingRule) (i : Nat) (s : String) (n : Nat)
      (s0 : String),
      blocked_reasons (pre ++ r :: post) = [] →
      (∀ p ∈ pre, caution_reason_of p = none) →
      rule_branch r = some (i, BranchKind.caution, s, n) →
      i ≠ 8 → r.reason = some s0 → s0 ≠ "" →
      (derive_parking_decision (pre ++ r :: post)).primary_reason = s0) := by
  constructor
  · intro pre post r i s n s0 hpre h h6 hr hs0
    have hs : s = s0 := blocked_branch_reason_verbatim r i s n h h6 s0 hr hs0
    have hb : blocked_reason_of r = some s := by
      unfold blocked_reason_of
      rw [h]
    rw [← hs]
    exact primary_first_blocked pre post r s hpre hb
  · intro pre post r i s n s0 hnb hpre h h8 hr hs0
    have hs : s = s0 := caution_branch_reason_verbatim r i s n h h8 s0 hr hs0
    have hc : caution_reason_of r = some s := by
      unfold caution_reason_of
      rw [h]
    rw [← hs]
    exact primary_first_caution pre post r s hnb hpre hc

/-- Concrete hydrant rule with an explicit reason, for the C5 witness. -/
def c5wRule : ParkingRule :=
  { type := "hydrant_proximity", description := "desc", valid := false,
    reason := some "Hydrant custom reason", source := "s" }

/-- Witness for the amended C5 at a concrete hydrant rule. -/
theorem C5_reason_verbatim_amended_witness :
    (derive_parking_decision [c5wRule]).primary_reason = "Hydrant custom reason" :=
  C5_reason_verbatim_amended.1 [] [] c5wRule 4 "Hydrant custom reason" 97
    "Hydrant custom reason" (by simp) (by decide) (by decide) rfl (by decide)

/-! ## rule_engine.py: day-spec parsing -/

/-- rule_engine.DAY_TO_INDEX as a lookup function. -/
def day_to_index (s : String) : Option Nat :=
  if s = "mon" ∨ s = "monday" then some 0
  else if s = "tue" ∨ s = "tues" ∨ s = "tuesday" then some 1
  else if s = "wed" ∨ s = "weds" ∨ s = "wednesday" then some 2
  else if s = "thu" ∨ s = "thur" ∨ s = "thurs" ∨ s = "thursday" then some 3
  else if s = "fri" ∨ s = "friday" then some 4
  else if s = "sat" ∨ s = "saturday" then some 5
  else if s = "sun" ∨ s = "sunday" then some 6
  else none

/-- The Mon..Fri default day set. -/
def default_days : Finset ℕ := {0, 1, 2, 3, 4}

/-- The separator normalisation chain in parse_days_spec. -/
def normalize_days (raw : String) : String :=
  replaceS (replaceS (replaceS (replaceS raw "&" ",") "/" ",") " and " ",") ";" ","

/-- The comma-split, stripped, non-empty parts of the normalised spec. -/
def day_parts (raw : String) : List String :=
  (((normalize_days raw).data |> splitCharL ',').map
    (fun p => (⟨trimL p⟩ : String))).filter (fun p => p ≠ "")

/-- The day indices one part contributes: an inclusive (possibly
week-wrapping) range for a dashed token pair, a singleton for a known day
name, nothing otherwise. -/
def day_contrib (part : String) : Finset ℕ :=
  if part.data.contains '-' then
    match day_to_index ⟨trimL (splitFirstL '-' part.data).1⟩,
        day_to_index ⟨trimL ((splitFirstL '-' part.data).2.getD [])⟩ with
    | some si, some ei =>
        if si ≤ ei then Finset.Icc si ei
        else Finset.Icc si 6 ∪ Finset.Icc 0 ei
    | _, _ => ∅
  else
    match day_to_index part with
    | some i => {i}
    | none => ∅

/-- The fold of all part contributions (the loop body of parse_days_spec). -/
def parse_days_result (raw : String) : Finset ℕ :=
  (day_parts raw).foldl (fun acc part => acc ∪ day_contrib part) ∅

/-- rule_engine.parse_days_spec.  `lowerS (trimS ds)` is the `raw` local of
the source. -/
def parse_days_spec (days_spec : Option String) : Finset ℕ :=
  match days_spec with
  | none => default_days
  | some ds =>
      if ds = "" then default_days
      else if lowerS (trimS ds) = "daily" ∨ lowerS (trimS ds) = "everyday" ∨
          lowerS (trimS ds) = "all" ∨ lowerS (trimS ds) = "all days" then
        Finset.range 7
      else if lowerS (trimS ds) = "weekdays" ∨ lowerS (trimS ds) = "mon-fri" then
        {0, 1, 2, 3, 4}
      else if lowerS (trimS ds) = "weekends" ∨ lowerS (trimS ds) = "sat-sun" then
        {5, 6}
      else if parse_days_result (lowerS (trimS ds)) = ∅ then default_days
      else parse_days_result (lowerS (trimS ds))

theorem day_to_index_le (s : String) (i : Nat) (h : day_to_index s = some i) : i ≤ 6 := by
  unfold day_to_index at h
  split_ifs at h <;> simp_all <;> omega

theorem day_contrib_subset (part : String) : day_contrib part ⊆ Finset.range 7 := by
  unfold day_contrib
  split
  · split
    · rename_i si ei h₁ h₂
      have hsi := day_to_index_le _ _ h₁
      have hei := day_to_index_le _ _ h₂
      split_ifs with hle
      · intro x hx
        rw [Finset.mem_Icc] at hx
        rw [Finset.mem_range]
        omega
      · intro x hx
        rw [Finset.mem_union, Finset.mem_Icc, Finset.mem_Icc] at hx
        rw [Finset.mem_range]
        omega
    · exact Finset.empty_subset _
  · split
    · rename_i i h
      have := day_to_index_le _ _ h
      intro x hx
      rw [Finset.mem_singleton] at hx
      rw [Finset.mem_range]
      omega
    · exact Finset.empty_subset _

theorem foldl_day_union_subset (parts : List String) (acc : Finset ℕ)
    (hacc : acc ⊆ Finset.range 7) :
    parts.foldl (fun a p => a ∪ day_contrib p) acc ⊆ Finset.range 7 := by
  induction parts generalizing acc with
  | nil => exact hacc
  | cons p ps ih =>
      simp only [List.foldl_cons]
      exact ih _ (Finset.union_subset hacc (day_contrib_subset p))

theorem foldl_day_union_empty (parts : List String)
    (h : ∀ p ∈ parts, day_contrib p = ∅) :
    parts.foldl (fun a p => a ∪ day_contrib p) ∅ = ∅ := by
  induction parts with
  | nil => rfl
  | cons p ps ih =>
      simp only [List.foldl_cons, h p (by simp), Finset.union_empty]
      exact ih fun q hq => h q (by simp [hq])

/-- Claim C7: parse_days_spec always returns a non-empty subset of the
weekday indices 0..6, and for absent, empty or unparseable input (no
keyword form and no part contributing a day) it returns exactly Mon..Fri,
i.e. the set 0,1,2,3,4. -/
theorem C7_parse_days_spec :
    (∀ o : Option String,
      (parse_days_spec o).Nonempty ∧ parse_days_spec o ⊆ Finset.range 7) ∧
    parse_days_spec none = {0, 1, 2, 3, 4} ∧
    parse_days_spec (some "") = {0, 1, 2, 3, 4} ∧
    (∀ ds : String, ds ≠ "" →
      (lowerS (trimS ds) ≠ "daily" ∧ lowerS (trimS ds) ≠ "everyday" ∧
        lowerS (trimS ds) ≠ "all" ∧ lowerS (trimS ds) ≠ "all days" ∧
        lowerS (trimS ds) ≠ "weekdays" ∧ lowerS (trimS ds) ≠ "mon-fri" ∧
        lowerS (trimS ds) ≠ "weekends" ∧ lowerS (trimS ds) ≠ "sat-sun") →
      (∀ p ∈ day_parts (lowerS (trimS ds)), day_contrib p = ∅) →
      parse_days_spec (some ds) = {0, 1, 2, 3, 4}) := by
  refine ⟨?_, by decide, by decide, ?_⟩
  · intro o
    cases o with
    | none => exact ⟨by decide, by decide⟩
    | some ds =>
        simp only [parse_days_spec]
        split_ifs with h₁ h₂ h₃ h₄ h₅
        · exact ⟨by decide, by decide⟩
        · exact ⟨by decide, by decide⟩
        · exact ⟨by decide, by decide⟩
        · exact ⟨by decide, by decide⟩
        · exact ⟨by decide, by decide⟩
        · exact ⟨Finset.nonempty_iff_ne_empty.mpr h₅,
            foldl_day_union_subset _ _ (Finset.empty_subset _)⟩
  · intro ds hne hkw hparts
    simp only [parse_days_spec]
    rw [if_neg hne, if_neg (by tauto), if_neg (by tauto), if_neg (by tauto),
      if_pos (show parse_days_result (lowerS (trimS ds)) = ∅ by
        unfold parse_days_result
        exact foldl_day_union_empty _ hparts)]
    rfl

/-- Witness for C7 at the garbage input "zzz". -/
theorem C7_parse_days_spec_witness :
    parse_days_spec (some "zzz") = {0, 1, 2, 3, 4} :=
  C7_parse_days_spec.2.2.2 "zzz" (by decide) (by decide) (by decide)

/-! ## rule_engine.py: time parsing (strptime-style, structural) -/

/-- A wall-clock time of day (the `datetime.time` the parser produces). -/
structure Tm where
  hour : Nat
  minute : Nat
  second : Nat
  deriving DecidableEq, Repr

/-- Numeric value of a decimal digit character. -/
def digitVal (c : Char) : Nat := c.toNat - '0'.toNat

/-- Read exactly two decimal digits. -/
def takeDigits2 (cs : List Char) : Option (Nat × List Char) :=
  match cs with
  | a :: b :: rest =>
      if a.isDigit ∧ b.isDigit then some (digitVal a * 10 + digitVal b, rest) else none
  | _ => none

/-- Read exactly one decimal digit. -/
def takeDigit1 (cs : List Char) : Option (Nat × List Char) :=
  match cs with
  | a :: rest => if a.isDigit then some (digitVal a, rest) else none
  | _ => none

/-- strptime `%H` alternatives in matching order: a two-digit value 00..23,
else one digit. -/
def candH (cs : List Char) : List (Nat × List Char) :=
  (match takeDigits2 cs with
    | some (v, r) => if v ≤ 23 then [(v, r)] else []
    | none => []) ++
  (match takeDigit1 cs with
    | some vr => [vr]
    | none => [])

/-- strptime `%M` (and effective `%S`) alternatives: a two-digit value
00..59, else one digit.  (`%S` also matches 60/61, but `datetime.time`
then raises `ValueError`, which the caller treats exactly like a format
mismatch, and no other accepted format matches such a string.) -/
def candM (cs : List Char) : List (Nat × List Char) :=
  (match takeDigits2 cs with
    | some (v, r) => if v ≤ 59 then [(v, r)] else []
    | none => []) ++
  (match takeDigit1 cs with
    | some vr => [vr]
    | none => [])

/-- strptime `%I` alternatives: a two-digit value 01..12, else one digit
1..9. -/
def candI (cs : List Char) : List (Nat × List Char) :=
  (match takeDigits2 cs with
    | some (v, r) => if 1 ≤ v ∧ v ≤ 12 then [(v, r)] else []
    | none => []) ++
  (match takeDigit1 cs with
    | some (v, r) => if 1 ≤ v then [(v, r)] else []
    | none => [])

/-- Match one literal character. -/
def expectChar (c : Char) (cs : List Char) : Option (List Char) :=
  match cs with
  | a :: rest => if a = c then some rest else none
  | [] => none

/-- strptime turns a blank in the format into one-or-more whitespace. -/
def ws1 (cs : List Char) : Option (List Char) :=
  match cs with
  | a :: rest => if a.isWhitespace then some (rest.dropWhile Char.isWhitespace) else none
  | [] => none

/-- strptime `%p`: AM/PM, case-insensitive; returns the PM flag. -/
def candP (cs : List Char) : Option (Bool × List Char) :=
  match cs with
  | a :: b :: rest =>
      if a.toLower = 'a' ∧ b.toLower = 'm' then some (false, rest)
      else if a.toLower = 'p' ∧ b.toLower = 'm' then some (true, rest)
      else none
  | _ => none

/-- strptime's 12h → 24h hour conversion for `%I %p`. -/
def hour12to24 (h : Nat) (pm : Bool) : Nat :=
  if pm then (if h = 12 then 12 else h + 12)
  else (if h = 12 then 0 else h)

/-- Format `H:M` (full-string match). -/
def fmt_HM (cs : List Char) : Option Tm :=
  (candH cs).findSome? fun hv =>
    match expectChar ':' hv.2 with
    | none => none
    | some r1 =>
        (candM r1).findSome? fun mv =>
          if mv.2 = [] then some ⟨hv.1, mv.1, 0⟩ else none

/-- Format `H:M:S` (full-string match). -/
def fmt_HMS (cs : List Char) : Option Tm :=
  (candH cs).findSome? fun hv =>
    match expectChar ':' hv.2 with
    | none => none
    | some r1 =>
        (candM r1).findSome? fun mv =>
          match expectChar ':' mv.2 with
          | none => none
          | some r2 =>
              (candM r2).findSome? fun sv =>
                if sv.2 = [] then some ⟨hv.1, mv.1, sv.1⟩ else none

/-- Format `I:M p` (full-string match). -/
def fmt_IMp (cs : List Char) : Option Tm :=
  (candI cs).findSome? fun hv =>
    match expectChar ':' hv.2 with
    | none => none
    | some r1 =>
        (candM r1).findSome? fun mv =>
          match ws1 mv.2 with
          | none => none
          | some r2 =>
              match candP r2 with
              | none => none
              | some (pm, r3) =>
                  if r3 = [] then some ⟨hour12to24 hv.1 pm, mv.1, 0⟩ else none

/-- Format `I p` (full-string match). -/
def fmt_Ip (cs : List Char) : Option Tm :=
  (candI cs).findSome? fun hv =>
    match ws1 hv.2 with
    | none => none
    | some r1 =>
        match candP r1 with
        | none => none
        | some (pm, r2) =>
            if r2 = [] then some ⟨hour12to24 hv.1 pm, 0, 0⟩ else none

/-- rule_engine.parse_time_value: tries the formats `H:M`, `H:M:S`,
`I:M p`, `I p` in order against the stripped upper-cased input; falls back
on failure or falsy input. -/
def parse_time_value (value : Option String) (fallback : Tm) : Tm :=
  match value with
  | none => fallback
  | some s =>
      if s = "" then fallback
      else
        match fmt_HM (upperS (trimS s)).data with
        | some t => t
        | none =>
            match fmt_HMS (upperS (trimS s)).data with
            | some t => t
            | none =>
                match fmt_IMp (upperS (trimS s)).data with
                | some t => t
                | none =>
                    match fmt_Ip (upperS (trimS s)).data with
                    | some t => t
                    | none => fallback

/-! ## rule_engine.py: evaluate_recurring_window -/

/-- rule_engine.RestrictionWindowEvaluation; instants in naive local
seconds, countdown in seconds. -/
structure RestrictionWindowEvaluation where
  active_now : Bool
  next_start : Nat
  current_start : Option Nat
  current_end : Option Nat
  countdown : Int
  countdown_mode : String
  timezone : String
  deriving DecidableEq, Repr

/-- Seconds after midnight of a wall-clock time. -/
def secOfTm (t : Tm) : Nat := t.hour * 3600 + t.minute * 60 + t.second

/-- Python `datetime.weekday()` under the day-0-is-Monday convention. -/
def weekday (t : Nat) : Nat := (t / 86400) % 7

/-- The `build_window` closure: start and end of the window on the anchor's
calendar day, with the end rolled to the following day when `end ≤ start`. -/
def build_window (start_t end_t : Tm) (anchor : Nat) : Nat × Nat :=
  if anchor / 86400 * 86400 + secOfTm end_t ≤ anchor / 86400 * 86400 + secOfTm start_t then
    (anchor / 86400 * 86400 + secOfTm start_t, anchor / 86400 * 86400 + secOfTm end_t + 86400)
  else
    (anchor / 86400 * 86400 + secOfTm start_t, anchor / 86400 * 86400 + secOfTm end_t)

/-- The next-start scan: the first offset 0..7 whose day is active and whose
window start is not before the reference. -/
def find_next_start (active_days : Finset ℕ) (start_t end_t : Tm) (now : Nat) : Option Nat :=
  (List.range 8).findSome? fun offset =>
    if weekday (now + offset * 86400) ∈ active_days then
      if (build_window start_t end_t (now + offset * 86400)).1 ≥ now then
        some (build_window start_t end_t (now + offset * 86400)).1
      else none
    else none

/-- The defensive fallback for `next_start`: tomorrow at start hour/minute
(seconds zeroed). -/
def next_start_fallback (start_t : Tm) (now : Nat) : Nat :=
  (now / 86400 + 1) * 86400 + start_t.hour * 3600 + start_t.minute * 60

/-- The body of evaluate_recurring_window after input parsing. -/
def evaluate_core (now : Nat) (active_days : Finset ℕ) (start_t end_t : Tm)
    (tz : String) : RestrictionWindowEvaluation :=
  match
    (if weekday now ∈ active_days then
      (if (build_window start_t end_t now).1 ≤ now ∧ now < (build_window start_t end_t now).2 then
        some (build_window start_t end_t now)
      else none)
    else none : Option (Nat × Nat))
  with
  | some w =>
      { active_now := true
        next_start := (find_next_start active_days start_t end_t now).getD
          (next_start_fallback start_t now)
        current_start := some w.1
        current_end := some w.2
        countdown := (w.2 : Int) - (now : Int)
        countdown_mode := "until_end"
        timezone := tz }
  | none =>
      { active_now := false
        next_start := (find_next_start active_days start_t end_t now).getD
          (next_start_fallback start_t now)
        current_start := none
        current_end := none
        countdown := (((find_next_start active_days start_t end_t now).getD
          (next_start_fallback start_t now) : Nat) : Int) - (now : Int)
        countdown_mode := "until_start"
        timezone := tz }

/-- rule_engine.evaluate_recurring_window, naive local seconds, default
timezone name threaded through unchanged (no zone conversion applies to a
naive reference). -/
def evaluate_recurring_window (now : Nat) (days_spec start_time end_time : Option String)
    (timezone_name : String := "America/New_York") : RestrictionWindowEvaluation :=
  evaluate_core now (parse_days_spec days_spec)
    (parse_time_value start_time ⟨6, 0, 0⟩) (parse_time_value end_time ⟨9, 0, 0⟩)
    timezone_name

theorem find_next_start_ge (A : Finset ℕ) (s e : Tm) (now v : Nat)
    (h : find_next_start A s e now = some v) : now ≤ v := by
  unfold find_next_start at h
  obtain ⟨off, _, hf⟩ := List.exists_of_findSome?_eq_some h
  split_ifs at hf with h₁ h₂
  cases hf
  exact h₂

theorem next_start_fallback_gt (s : Tm) (now : Nat) : now < next_start_fallback s now := by
  unfold next_start_fallback
  omega

theorem evaluate_core_invariants (now : Nat) (A : Finset ℕ) (s e : Tm) (tz : String) :
    0 ≤ (evaluate_core now A s e tz).countdown ∧
    ((evaluate_core now A s e tz).active_now = true →
      ∃ cs ce, (evaluate_core now A s e tz).current_start = some cs ∧
        (evaluate_core now A s e tz).current_end = some ce ∧
        cs ≤ now ∧ now < ce) ∧
    ((evaluate_core now A s e tz).active_now = false →
      now ≤ (evaluate_core now A s e tz).next_start) := by
  have hns : now ≤ (find_next_start A s e now).getD (next_start_fallback s now) := by
    cases h : find_next_start A s e now with
    | some v =>
        simp only [Option.getD_some]
        exact find_next_start_ge A s e now v h
    | none =>
        simp only [Option.getD_none]
        exact le_of_lt (next_start_fallback_gt s now)
  unfold evaluate_core
  split
  · rename_i w hw
    split_ifs at hw with h₁ h₂
    cases hw
    refine ⟨?_, fun _ => ⟨_, _, rfl, rfl, h₂.1, h₂.2⟩, ?_⟩
    · show (0 : Int) ≤ ((build_window s e now).2 : Int) - (now : Int)
      have := h₂.2
      omega
    · intro hf
      exact absurd hf (by simp)
  · refine ⟨?_, ?_, fun _ => hns⟩
    · show (0 : Int) ≤
        (((find_next_start A s e now).getD (next_start_fallback s now) : Nat) : Int) -
          (now : Int)
      omega
    · intro ht
      exact absurd ht (by simp)

/-- Reference instant exactly at the window start of an active day refutes
the strict inequality `reference > current_start` in claim C2: Monday 06:00
with the default Mon-Fri 06:00-09:00 window is active with
`current_start = reference`. -/
theorem C2_strict_start_counterexample :
    (evaluate_recurring_window 21600 none none none).active_now = true ∧
    (evaluate_recurring_window 21600 none none none).current_start = some 21600 ∧
    ¬ (21600 < 21600) :=
  ⟨by decide, by decide, by decide⟩

/-- Claim C2 amended: for every reference instant and day/start/end
specification, countdown is non-negative; when active,
`current_start ≤ reference < current_end` (equality can occur on the left,
so `reference > current_start` only holds non-strictly); when not active,
`next_start ≥ reference`. -/
theorem C2_window_invariants_amended (now : Nat) (ds st et : Option String) :
    0 ≤ (evaluate_recurring_window now ds st et).countdown ∧
    ((evaluate_recurring_window now ds st et).active_now = true →
      ∃ cs ce, (evaluate_recurring_window now ds st et).current_start = some cs ∧
        (evaluate_recurring_window now ds st et).current_end = some ce ∧
        cs ≤ now ∧ now < ce) ∧
    ((evaluate_recurring_window now ds st et).active_now = false →
      now ≤ (evaluate_recurring_window now ds st et).next_start) :=
  evaluate_core_invariants now (parse_days_spec ds)
    (parse_time_value st ⟨6, 0, 0⟩) (parse_time_value et ⟨9, 0, 0⟩) "America/New_York"

/-- Witness for the amended C2 at Monday 07:15 with defaults. -/
theorem C2_window_invariants_amended_witness :
    0 ≤ (evaluate_recurring_window 26100 none none none).countdown ∧
    (∃ cs ce, (evaluate_recurring_window 26100 none none none).current_start = some cs ∧
      (evaluate_recurring_window 26100 none none none).current_end = some ce ∧
      cs ≤ 26100 ∧ 26100 < ce) :=
  ⟨(C2_window_invariants_amended 26100 none none none).1,
    (C2_window_invariants_amended 26100 none none none).2.1 (by decide)⟩

/-- Claim C6: for the overnight window 22:00-06:00 on an active weekday
(Monday, day 0, with the default Mon-Fri day set): the end is rolled to the
following day (current_end 108000 is day 1 at 06:00), a reference of 23:00
(82800) is active, and a reference of 12:00 (43200) is not active with
next_start 79200, the same day at 22:00. -/
theorem C6_overnight_window :
    (evaluate_recurring_window 82800 none (some "22:00") (some "06:00")).active_now = true ∧
    (evaluate_recurring_window 82800 none (some "22:00") (some "06:00")).current_start = some 79200 ∧
    (evaluate_recurring_window 82800 none (some "22:00") (some "06:00")).current_end = some 108000 ∧
    (evaluate_recurring_window 43200 none (some "22:00") (some "06:00")).active_now = false ∧
    (evaluate_recurring_window 43200 none (some "22:00") (some "06:00")).next_start = 79200 :=
  ⟨by decide, by decide, by decide, by decide, by decide⟩

/-! ## proximity_engine.py and hydrant_service.py -/

/-- Round-half-even of a rational to an integer (CPython `round`/`%.Nf`
semantics at rational precision). -/
def roundHalfEvenQ (q : ℚ) : Int :=
  if 2 * (q.num - ⌊q⌋ * (q.den : Int)) < (q.den : Int) then ⌊q⌋
  else if (q.den : Int) < 2 * (q.num - ⌊q⌋ * (q.den : Int)) then ⌊q⌋ + 1
  else if ⌊q⌋ % 2 = 0 then ⌊q⌋ else ⌊q⌋ + 1

/-- Python `round(x, 1)` at rational precision. -/
def roundQ1 (q : ℚ) : ℚ :=
  mkRat (roundHalfEvenQ (mkRat (q.num * 10) q.den)) 10

/-- Python format `.0f` at rational precision. -/
def formatFixed0 (q : ℚ) : String :=
  toString (roundHalfEvenQ q)

/-- Python format `.1f` at rational precision. -/
def formatFixed1 (q : ℚ) : String :=
  if roundHalfEvenQ (mkRat (q.num * 10) q.den) < 0 then
    "-" ++ toString ((-roundHalfEvenQ (mkRat (q.num * 10) q.den)).toNat / 10) ++ "." ++
      toString ((-roundHalfEvenQ (mkRat (q.num * 10) q.den)).toNat % 10)
  else
    toString ((roundHalfEvenQ (mkRat (q.num * 10) q.den)).toNat / 10) ++ "." ++
      toString ((roundHalfEvenQ (mkRat (q.num * 10) q.den)).toNat % 10)

/-- proximity_engine.ClearanceEvaluation. -/
structure ClearanceEvaluation where
  rule_type : String
  distance_ft : ℚ
  threshold_ft : ℚ
  blocked : Bool
  severity : String
  reason : String
  deriving DecidableEq, Repr

/-- proximity_engine.evaluate_hydrant_clearance (default threshold 15 ft). -/
def evaluate_hydrant_clearance (distance_ft : ℚ) (threshold_ft : ℚ := 15) :
    ClearanceEvaluation :=
  if distance_ft < threshold_ft then
    { rule_type := "hydrant_proximity"
      distance_ft := roundQ1 distance_ft
      threshold_ft := threshold_ft
      blocked := true
      severity := "high"
      reason := "Too close to hydrant: " ++ formatFixed1 distance_ft ++ " ft (minimum " ++
        formatFixed0 threshold_ft ++ " ft)." }
  else
    { rule_type := "hydrant_proximity"
      distance_ft := roundQ1 distance_ft
      threshold_ft := threshold_ft
      blocked := false
      severity := "low"
      reason := "Hydrant clearance ok: " ++ formatFixed1 distance_ft ++
        " ft from nearest hydrant." }

/-- Claim C9: evaluate_hydrant_clearance reports blocked exactly when the
distance is strictly below the threshold; at distance equal to the default
15 ft threshold it is not blocked and severity is "low". -/
theorem C9_hydrant_strict_threshold :
    (∀ d t : ℚ, (evaluate_hydrant_clearance d t).blocked = decide (d < t)) ∧
    (evaluate_hydrant_clearance 15 15).blocked = false ∧
    (evaluate_hydrant_clearance 15 15).severity = "low" := by
  refine ⟨?_, by decide, by decide⟩
  intro d t
  unfold evaluate_hydrant_clearance
  split_ifs with h <;> simp [h]

/-- The ParkingRule hydrant_service.build_hydrant_rules appends for a
resolved hydrant distance (threshold fixed at 15.0). -/
def hydrant_rule_for (distance_ft : ℚ) (hydrant_source : String) : ParkingRule :=
  { type := (evaluate_hydrant_clearance distance_ft 15).rule_type
    description := "Fire hydrant clearance rule"
    distance_ft := some (evaluate_hydrant_clearance distance_ft 15).distance_ft
    threshold_ft := some (evaluate_hydrant_clearance distance_ft 15).threshold_ft
    severity := some (evaluate_hydrant_clearance distance_ft 15).severity
    valid := !(evaluate_hydrant_clearance distance_ft 15).blocked
    reason := some (evaluate_hydrant_clearance distance_ft 15).reason
    source := hydrant_source }

/-- The per-rule enrichment step in main.py: attach the violation estimate
when one exists. -/
def enrich_rule (r : ParkingRule) : ParkingRule :=
  match estimate_violation_for_rule r with
  | none => r
  | some e => { r with violation_estimate := some e }

/-- Claim C8: a single invalid hydrant_proximity rule (12 ft) yields a
blocked decision with risk 97 and a primary reason mentioning "hydrant";
after enrichment, the violation summary reports highest single max 115 and
one high-risk violation. -/
theorem C8_hydrant_scenario :
    (derive_parking_decision [enrich_rule (hydrant_rule_for 12 "src")]).status = "blocked" ∧
    (derive_parking_decision [enrich_rule (hydrant_rule_for 12 "src")]).risk_score = 97 ∧
    strContains
      (derive_parking_decision [enrich_rule (hydrant_rule_for 12 "src")]).primary_reason
      "hydrant" = true ∧
    (summarize_violations [enrich_rule (hydrant_rule_for 12 "src")]).highest_single_max_usd
      = 115 ∧
    (summarize_violations [enrich_rule (hydrant_rule_for 12 "src")]).high_risk_violations
      = 1 :=
  ⟨by decide, by decide, by decide, by decide, by decide⟩

/-! ## sign_parser.py: text extraction -/

/-- Value of a digit string (Python `int` on the matched digit groups). -/
def strToNat (s : String) : Nat :=
  s.data.foldl (fun a c => a * 10 + digitVal c) 0

/-- sign_parser._format_duration_seconds on whole seconds. -/
def format_duration_seconds (seconds : Int) : String :=
  toString ((max seconds 0).toNat / 3600) ++ "h " ++
    toString ((max seconds 0).toNat % 3600 / 60) ++ "m"

/-- sign_parser._extract_day_spec_from_text: first day token found in the
lower-cased text, mapped to a canonical spec. -/
def extract_day_spec_from_text (text : String) : Option String :=
  if strContains (lowerS text) "mon-fri" then some "Mon-Fri"
  else if strContains (lowerS text) "monday-friday" then some "Mon-Fri"
  else if strContains (lowerS text) "weekdays" then some "Mon-Fri"
  else if strContains (lowerS text) "daily" then some "Daily"
  else if strContains (lowerS text) "weekends" then some "Weekends"
  else if strContains (lowerS text) "sat-sun" then some "Sat-Sun"
  else none

/-- The captured groups of the 12-hour time-range pattern
`(\d pair)(?::(\d\d))?\s*(AM|PM)\s*[-dash]\s*(\d pair)(?::(\d\d))?\s*(AM|PM)`. -/
structure TimeMatch where
  h1 : String
  m1 : Option String
  a1 : String
  h2 : String
  m2 : Option String
  a2 : String
  deriving DecidableEq, Repr

/-- `(\d{1,2})` alternatives in regex matching order: two digits, then one. -/
def digits12cands (cs : List Char) : List (String × List Char) :=
  (match cs with
    | a :: b :: rest => if a.isDigit ∧ b.isDigit then [(⟨[a, b]⟩, rest)] else []
    | _ => []) ++
  (match cs with
    | a :: rest => if a.isDigit then [(⟨[a]⟩, rest)] else []
    | _ => [])

/-- `(?::(\d{2}))?` alternatives in matching order: present, then absent. -/
def optMinuteCands (cs : List Char) : List (Option String × List Char) :=
  (match cs with
    | c :: a :: b :: rest =>
        if c = ':' ∧ a.isDigit ∧ b.isDigit then [(some ⟨[a, b]⟩, rest)] else []
    | _ => []) ++ [(none, cs)]

/-- `\s*` (greedy; the tokens that follow are never whitespace, so the
greedy consumption never needs to backtrack). -/
def dropWs (cs : List Char) : List Char := cs.dropWhile Char.isWhitespace

/-- `(AM|PM)`, case-insensitive, preserving the matched text. -/
def ampmAt (cs : List Char) : Option (String × List Char) :=
  match cs with
  | a :: b :: rest =>
      if a.toLower = 'a' ∧ b.toLower = 'm' then some (⟨[a, b]⟩, rest)
      else if a.toLower = 'p' ∧ b.toLower = 'm' then some (⟨[a, b]⟩, rest)
      else none
  | _ => none

/-- `[-–]`: hyphen or en-dash. -/
def dashAt (cs : List Char) : Option (List Char) :=
  match cs with
  | c :: rest => if c = '-' ∨ c = '–' then some rest else none
  | [] => none

/-- Match the whole time-range pattern anchored at this position, trying
alternatives in regex backtracking order. -/
def matchTimeAt (cs : List Char) : Option TimeMatch :=
  (digits12cands cs).findSome? fun h1c =>
    (optMinuteCands h1c.2).findSome? fun m1c =>
      match ampmAt (dropWs m1c.2) with
      | none => none
      | some (a1, r1) =>
          match dashAt (dropWs r1) with
          | none => none
          | some r2 =>
              (digits12cands (dropWs r2)).findSome? fun h2c =>
                (optMinuteCands h2c.2).findSome? fun m2c =>
                  match ampmAt (dropWs m2c.2) with
                  | none => none
                  | some (a2, _) =>
                      some ⟨h1c.1, m1c.1, a1, h2c.1, m2c.1, a2⟩

/-- `re.search`: the match at the leftmost position where one exists. -/
def searchTime : List Char → Option TimeMatch
  | [] => none
  | c :: cs =>
      match matchTimeAt (c :: cs) with
      | some m => some m
      | none => searchTime cs

/-- The nested `to_24h` of _extract_time_window_from_text: hour modulo 12,
then +12 for PM; absent minutes default to 0; both zero-padded. -/
def to_24h (hour_str : String) (minute_str : Option String) (ampm : String) : String :=
  pad2 (strToNat hour_str % 12 + if lowerS ampm = "pm" then 12 else 0) ++ ":" ++
    pad2 (match minute_str with | some m => strToNat m | none => 0)

/-- sign_parser._extract_time_window_from_text. -/
def extract_time_window_from_text (text : String) : Option String × Option String :=
  match searchTime text.data with
  | none => (none, none)
  | some m => (some (to_24h m.h1 m.m1 m.a1), some (to_24h m.h2 m.m2 m.a2))

/-- Claim C10: whenever the 12-hour time-range pattern matches, the emitted
start/end strings take the hour modulo 12 before adding the PM offset and
default absent minutes to 00; so 12:30 AM becomes 00:30 and 12 PM becomes
12:00. -/
theorem C10_twelve_hour_conversion :
    (∀ (text : String) (m : TimeMatch), searchTime text.data = some m →
      extract_time_window_from_text text =
        (some (pad2 (strToNat m.h1 % 12 + if lowerS m.a1 = "pm" then 12 else 0) ++ ":" ++
          pad2 (match m.m1 with | some mm => strToNat mm | none => 0)),
         some (pad2 (strToNat m.h2 % 12 + if lowerS m.a2 = "pm" then 12 else 0) ++ ":" ++
          pad2 (match m.m2 with | some mm => strToNat mm | none => 0)))) ∧
    extract_time_window_from_text "NO STANDING 12:30 AM – 12 PM" =
      (some "00:30", some "12:00") := by
  constructor
  · intro text m h
    unfold extract_time_window_from_text
    rw [h]
    rfl
  · decide

/-- Witness for C10 at a concrete matched text. -/
theorem C10_twelve_hour_conversion_witness :
    extract_time_window_from_text "7:05 pm - 12 am" = (some "19:05", some "00:00") := by
  have h := C10_twelve_hour_conversion.1 "7:05 pm - 12 am"
    ⟨"7", some "05", "pm", "12", none, "am"⟩ (by decide)
  rw [h]
  decide

/-! ## sign_parser.py: parse_regulation_record -/

/-- sign_parser.VehicleContext. -/
structure VehicleContext where
  vehicle_type : String
  commercial_plate : Bool
  agency_affiliation : String
  deriving DecidableEq, Repr

/-- A raw regulation record: the dict keys parse_regulation_record reads. -/
structure RawRegulation where
  order_type : Option String := none
  sign_desc : Option String := none
  description : Option String := none
  time_from : Option String := none
  time_to : Option String := none
  days : Option String := none
  deriving DecidableEq, Repr

/-- `str(reg.get("order_type", "unknown")).lower()`. -/
def reg_rule_type (reg : RawRegulation) : String :=
  lowerS (reg.order_type.getD "unknown")

/-- `reg.get("sign_desc") or reg.get("description") or "No description"`. -/
def reg_description (reg : RawRegulation) : String :=
  pyor reg.sign_desc (pyor reg.description "No description")

/-- The lower-cased description the keyword scans use. -/
def reg_desc_lower (reg : RawRegulation) : String :=
  lowerS (reg_description reg)

/-- Python `a or b` on optional strings (both may be absent/empty). -/
def pyorOpt (a b : Option String) : Option String :=
  if truthyOpt a then a else b

/-- The street-cleaning branch of parse_regulation_record. -/
def cleaning_rule (reg : RawRegulation) (now : Nat) : ParkingRule :=
  { type := "street_cleaning"
    description := reg_description reg
    next_cleaning := some (evaluate_recurring_window now (some (reg.days.getD "Mon-Fri"))
      (some (reg.time_from.getD "06:00")) (some (reg.time_to.getD "09:00"))).next_start
    window := some (reg.time_from.getD "06:00" ++ " - " ++ reg.time_to.getD "09:00")
    time_left := some (format_duration_seconds
      (evaluate_recurring_window now (some (reg.days.getD "Mon-Fri"))
        (some (reg.time_from.getD "06:00")) (some (reg.time_to.getD "09:00"))).countdown)
    active_now := some (evaluate_recurring_window now (some (reg.days.getD "Mon-Fri"))
      (some (reg.time_from.getD "06:00")) (some (reg.time_to.getD "09:00"))).active_now
    severity := some (if (evaluate_recurring_window now (some (reg.days.getD "Mon-Fri"))
      (some (reg.time_from.getD "06:00")) (some (reg.time_to.getD "09:00"))).active_now
      then "high" else "medium")
    valid := !(evaluate_recurring_window now (some (reg.days.getD "Mon-Fri"))
      (some (reg.time_from.getD "06:00")) (some (reg.time_to.getD "09:00"))).active_now
    reason := some (if (evaluate_recurring_window now (some (reg.days.getD "Mon-Fri"))
        (some (reg.time_from.getD "06:00")) (some (reg.time_to.getD "09:00"))).active_now
      then "Street cleaning active now (ends in " ++ format_duration_seconds
        (evaluate_recurring_window now (some (reg.days.getD "Mon-Fri"))
          (some (reg.time_from.getD "06:00")) (some (reg.time_to.getD "09:00"))).countdown ++ ")"
      else "Street cleaning starts in " ++ format_duration_seconds
        (evaluate_recurring_window now (some (reg.days.getD "Mon-Fri"))
          (some (reg.time_from.getD "06:00")) (some (reg.time_to.getD "09:00"))).countdown)
    source := "NYC DOT Sweeping Schedule" }

/-- The structured-else-extracted start/end resolution of the no_standing
branch. -/
def ns_resolved_times (reg : RawRegulation) : Option String × Option String :=
  if ¬truthyOpt reg.time_from ∨ ¬truthyOpt reg.time_to then
    (pyorOpt reg.time_from (extract_time_window_from_text (reg_description reg)).1,
     pyorOpt reg.time_to (extract_time_window_from_text (reg_description reg)).2)
  else
    (reg.time_from, reg.time_to)

/-- The day-spec resolution of the no_standing branch. -/
def ns_days (reg : RawRegulation) : Option String :=
  if truthyOpt reg.days then reg.days
  else some ((extract_day_spec_from_text (reg_description reg)).getD "Mon-Fri")

/-- The time-bound no_standing rule the branch emits when both times
resolved. -/
def no_standing_rule (reg : RawRegulation) (now : Nat) (st et : String) : ParkingRule :=
  { type := "no_standing"
    description := reg_description reg
    window := some (st ++ " - " ++ et)
    time_left := some (format_duration_seconds
      (evaluate_recurring_window now (ns_days reg) (some st) (some et)).countdown)
    active_now := some (evaluate_recurring_window now (ns_days reg) (some st) (some et)).active_now
    severity := some (if (evaluate_recurring_window now (ns_days reg) (some st) (some et)).active_now
      then "high" else "medium")
    valid := !(evaluate_recurring_window now (ns_days reg) (some st) (some et)).active_now
    reason := some (if (evaluate_recurring_window now (ns_days reg) (some st) (some et)).active_now
      then "No standing active now (ends in " ++ format_duration_seconds
        (evaluate_recurring_window now (ns_days reg) (some st) (some et)).countdown ++ ")"
      else "No standing starts in " ++ format_duration_seconds
        (evaluate_recurring_window now (ns_days reg) (some st) (some et)).countdown)
    source := "NYC DOT Sign" }

/-- The loading-zone trigger. -/
def is_loading_zone (dl : String) : Bool :=
  strContains dl "loading" || strContains dl "truck loading" ||
    strContains dl "commercial vehicles only" || strContains dl "trucks only"

/-- The loading-zone branch. -/
def loading_rule (desc dl : String) (vehicle : VehicleContext) : ParkingRule :=
  { type := if strContains dl "truck" then "truck_loading_only" else "loading_only"
    description := desc
    severity := some (if !(vehicle.vehicle_type = "truck" && vehicle.commercial_plate &&
        ((strContains dl "truck" || strContains dl "commercial") || strContains dl "loading"))
      then "high" else "medium")
    valid := vehicle.vehicle_type = "truck" && vehicle.commercial_plate &&
      ((strContains dl "truck" || strContains dl "commercial") || strContains dl "loading")
    reason := some (if !(vehicle.vehicle_type = "truck" && vehicle.commercial_plate &&
        ((strContains dl "truck" || strContains dl "commercial") || strContains dl "loading"))
      then "Loading/truck-only zone. Requires commercial truck profile."
      else "Commercial truck profile matches loading/truck-only zone.")
    source := "NYC DOT Sign" }

/-- The taxi-zone trigger. -/
def is_taxi_zone (dl : String) : Bool :=
  strContains dl "taxi stand" || strContains dl "taxi only" ||
    strContains dl "taxicab" || strContains dl "taxi zone"

/-- The FHV-zone trigger. -/
def is_fhv_zone (dl : String) : Bool :=
  (strContains dl "for-hire" || strContains dl "for hire" ||
    strContains dl "fhv" || strContains dl "tlc") &&
  (strContains dl "stand" || strContains dl "pickup" || strContains dl "pick-up" ||
    strContains dl "only" || strContains dl "zone")

/-- The taxi/FHV branch. -/
def taxi_fhv_rule (desc dl : String) (vehicle : VehicleContext) : ParkingRule :=
  if is_taxi_zone dl then
    { type := "taxi_only"
      description := desc
      severity := some (if vehicle.vehicle_type = "taxi" then "low" else "high")
      valid := vehicle.vehicle_type = "taxi"
      reason := some (if vehicle.vehicle_type = "taxi"
        then "Taxi-only zone matches current vehicle profile."
        else "Taxi-only zone. Current vehicle type '" ++ vehicle.vehicle_type ++
          "' is not eligible.")
      source := "NYC DOT Sign" }
  else
    { type := "fhv_only"
      description := desc
      severity := some (if vehicle.vehicle_type = "fhv" || vehicle.vehicle_type = "taxi"
        then "low" else "high")
      valid := vehicle.vehicle_type = "fhv" || vehicle.vehicle_type = "taxi"
      reason := some (if vehicle.vehicle_type = "fhv" || vehicle.vehicle_type = "taxi"
        then "FHV/TLC zone matches current vehicle profile."
        else "FHV/TLC zone. Current vehicle type '" ++ vehicle.vehicle_type ++
          "' is not eligible.")
      source := "NYC DOT Sign" }

/-- The fire-zone trigger. -/
def is_fire_zone (dl : String) : Bool :=
  strContains dl "fire zone" || strContains dl "fire lane" ||
    strContains dl "fire department" || strContains dl "fdny" ||
    strContains dl "emergency access"

/-- The fire-zone branch. -/
def fire_rule (desc : String) (vehicle : VehicleContext) : ParkingRule :=
  { type := "fire_zone"
    description := desc
    severity := some "high"
    eligible_vehicle_types := some ["fire"]
    valid := vehicle.agency_affiliation = "fire"
    reason := some (if !(vehicle.agency_affiliation = "fire" : Bool)
      then "Fire/emergency zone reserved for authorized fire access."
      else "Authorized fire-agency vehicle profile.")
    source := "NYC DOT Sign" }

/-- The official-vehicle trigger. -/
def is_official_zone (dl : String) : Bool :=
  strContains dl "police only" || strContains dl "nypd" ||
    strContains dl "department vehicles only" || strContains dl "official vehicles only" ||
    strContains dl "authorized vehicles only" || strContains dl "government vehicles only" ||
    strContains dl "agency vehicles only"

/-- The eligible-affiliation resolution of the official-vehicle branch. -/
def official_eligible (dl : String) : List String :=
  if strContains dl "police" || strContains dl "nypd" then ["police"]
  else if strContains dl "fire" || strContains dl "fdny" then ["fire"]
  else if strContains dl "school" then ["school"]
  else ["city", "police", "fire", "school"]

/-- Python `", ".join(eligible)` (structural). -/
def joinComma : List String → String
  | [] => ""
  | [x] => x
  | x :: xs => x ++ ", " ++ joinComma xs

/-- The official-vehicle branch. -/
def official_rule (desc dl : String) (vehicle : VehicleContext) : ParkingRule :=
  { type := "official_vehicle_only"
    description := desc
    severity := some (if !(official_eligible dl).contains vehicle.agency_affiliation
      then "high" else "low")
    eligible_vehicle_types := some (official_eligible dl)
    valid := (official_eligible dl).contains vehicle.agency_affiliation
    reason := some (if !(official_eligible dl).contains vehicle.agency_affiliation
      then "Reserved for " ++ joinComma (official_eligible dl) ++ " vehicles."
      else "Authorized agency profile matches reserved spot.")
    source := "NYC DOT Sign" }

/-- The final passthrough rule. -/
def catch_all_rule (rule_type desc : String) : ParkingRule :=
  { type := rule_type
    description := desc
    fine := some (if strContains rule_type "standing" || strContains rule_type "parking"
      then 65 else 0)
    severity := some (if strContains rule_type "standing" || strContains rule_type "parking"
      then "high" else "low")
    valid := true
    source := "NYC DOT Sign" }

/-- The classification chain from the loading-zone check down to the
catch-all (everything after the no_standing branch). -/
def parse_rest (rule_type desc dl : String) (vehicle : VehicleContext) : ParkingRule :=
  if is_loading_zone dl then loading_rule desc dl vehicle
  else if is_taxi_zone dl || is_fhv_zone dl then taxi_fhv_rule desc dl vehicle
  else if is_fire_zone dl then fire_rule desc vehicle
  else if is_official_zone dl then official_rule desc dl vehicle
  else catch_all_rule rule_type desc

/-- sign_parser.parse_regulation_record. -/
def parse_regulation_record (reg : RawRegulation) (now : Nat)
    (vehicle : VehicleContext) : ParkingRule :=
  if strContains (reg_rule_type reg) "clean" ||
      strContains (reg_desc_lower reg) "alternate side" then
    cleaning_rule reg now
  else if reg_rule_type reg = "no_standing" ||
      strContains (reg_desc_lower reg) "no standing" then
    if truthyOpt (ns_resolved_times reg).1 && truthyOpt (ns_resolved_times reg).2 then
      no_standing_rule reg now ((ns_resolved_times reg).1.getD "")
        ((ns_resolved_times reg).2.getD "")
    else
      parse_rest (reg_rule_type reg) (reg_description reg) (reg_desc_lower reg) vehicle
  else
    parse_rest (reg_rule_type reg) (reg_description reg) (reg_desc_lower reg) vehicle

/-- A record triggering no_standing with no resolvable times whose
description also contains loading keywords. -/
def c4Reg : RawRegulation :=
  { order_type := some "no_standing", sign_desc := some "No standing truck loading only" }

/-- A passenger vehicle profile. -/
def passengerVehicle : VehicleContext :=
  { vehicle_type := "passenger", commercial_plate := false, agency_affiliation := "none" }

/-- Counterexample to claim C4 as stated: this record triggers the
no_standing category and resolves no start/end time, yet the parser
produces the truck_loading_only keyword rule, not the generic catch-all. -/
theorem C4_counterexample :
    reg_rule_type c4Reg = "no_standing" ∧
    c4Reg.time_from = none ∧ c4Reg.time_to = none ∧
    extract_time_window_from_text (reg_description c4Reg) = (none, none) ∧
    (parse_regulation_record c4Reg 0 passengerVehicle).type = "truck_loading_only" ∧
    parse_regulation_record c4Reg 0 passengerVehicle ≠
      catch_all_rule (reg_rule_type c4Reg) (reg_description c4Reg) := by
  decide

/-- Claim C4 amended: a record that triggers the no_standing category (and
not street-cleaning) but resolves no complete start/end pair falls through
to the remaining keyword categories (loading, taxi/FHV, fire, official);
only when none of those match does it produce the generic catch-all rule. -/
theorem C4_no_standing_fallthrough_amended :
    ∀ (reg : RawRegulation) (now : Nat) (vehicle : VehicleContext),
      (strContains (reg_rule_type reg) "clean" ||
        strContains (reg_desc_lower reg) "alternate side") = false →
      (decide (reg_rule_type reg = "no_standing") ||
        strContains (reg_desc_lower reg) "no standing") = true →
      (truthyOpt (ns_resolved_times reg).1 && truthyOpt (ns_resolved_times reg).2) = false →
      parse_regulation_record reg now vehicle =
        parse_rest (reg_rule_type reg) (reg_description reg) (reg_desc_lower reg) vehicle ∧
      (is_loading_zone (reg_desc_lower reg) = false →
        (is_taxi_zone (reg_desc_lower reg) || is_fhv_zone (reg_desc_lower reg)) = false →
        is_fire_zone (reg_desc_lower reg) = false →
        is_official_zone (reg_desc_lower reg) = false →
        parse_regulation_record reg now vehicle =
          catch_all_rule (reg_rule_type reg) (reg_description reg)) := by
  intro reg now vehicle hclean hns hts
  have h1 : parse_regulation_record reg now vehicle =
      parse_rest (reg_rule_type reg) (reg_description reg) (reg_desc_lower reg) vehicle := by
    unfold parse_regulation_record
    simp [hclean, hns, hts]
  refine ⟨h1, ?_⟩
  intro hl htx hf ho
  rw [h1]
  unfold parse_rest
  simp [hl, htx, hf, ho]

/-- Witness for the amended C4: a plain no-standing record with no times
and no other keywords lands on the catch-all. -/
theorem C4_no_standing_fallthrough_amended_witness :
    parse_regulation_record
      { order_type := some "no_standing", sign_desc := some "No standing anytime" } 0
      passengerVehicle =
    catch_all_rule "no_standing" "No standing anytime" :=
  (C4_no_standing_fallthrough_amended
    { order_type := some "no_standing", sign_desc := some "No standing anytime" } 0
    passengerVehicle (by decide) (by decide) (by decide)).2
    (by decide) (by decide) (by decide) (by decide)
